import Mathlib

/-!
Shallow embedding of `src/main.py` (YouTube Stream Updater).

The script loads JSON config files listing stream records, fetches each
stream's m3u8 manifest from an HTTP endpoint, validates it, writes it to
the output tree, deletes stale files on failure, and reports a summary.

Modelling conventions:
* A config record (`stream_config`, a JSON object) is an association list
  of string fields.  `d[k]` (Python) raises `KeyError` when the key is
  absent; `d.get(k, dflt)` returns the default.
* The filesystem is a finite map from path strings to file contents.
  `unlink` is modelled as always succeeding: the source wraps it in a
  `try/except` whose two branches continue identically, so an OS-level
  unlink fault changes no control flow.  `mkdir` and `open/write` faults
  ARE modelled (fields of `RecordEnv`), because in the source `mkdir`
  sits OUTSIDE `save_stream`'s try block (line 150) while the write sits
  inside it — a control-flow distinction several claims depend on.
* One HTTP attempt's outcome is an oracle value; the environment supplies
  a whole sequence `Nat → HttpOutcome` so that statements about retry
  behaviour can mention what a second attempt would have returned.
* Uncaught Python exceptions are `Except.error`; `sys.exit(1)` in
  `load_config` is a distinguished loop result.
-/

namespace YT

/-- A JSON object from a config file (`stream_config` in the source),
as an association list of string-valued fields. -/
abbrev RawRecord := List (String × String)

/-- Python `d[k]` / `d.get(k)`: first binding of the key, if any. -/
def lookupField (r : RawRecord) (k : String) : Option String :=
  (r.find? (fun e => e.1 == k)).map (·.2)

/-- Python `d.get(k, dflt)`. -/
def getD (r : RawRecord) (k dflt : String) : String :=
  (lookupField r k).getD dflt

/-- The output file tree: a finite map from paths to file contents,
as an association list. -/
abbrev FS := List (String × String)

/-- Content of the file at path `p`, if present. -/
def fsGet (fs : FS) (p : String) : Option String :=
  (fs.find? (fun e => e.1 == p)).map (·.2)

/-- Write (create or overwrite) the file at path `p`. -/
def fsSet (fs : FS) (p c : String) : FS :=
  (p, c) :: fs.filter (fun e => e.1 != p)

/-- Delete the file at path `p` (`Path.unlink`). -/
def fsRemove (fs : FS) (p : String) : FS :=
  fs.filter (fun e => e.1 != p)

/-- Outcome of one HTTP GET attempt (`make_request`):
an explicit timeout (`requests.exceptions.Timeout`), another transport
error (`requests.exceptions.RequestException`), or a response with a
status code and body. -/
inductive HttpOutcome
  | timeout
  | connError
  | status (code : Nat) (body : String)
deriving DecidableEq

/-- The error kinds `fetch_stream_url` can return (source lines 132-139). -/
inductive FetchErr
  | Timeout
  | RequestError
  | InvalidContent
deriving DecidableEq

/-- The string recorded in `error_summary` for each fetch error kind. -/
def FetchErr.kindName : FetchErr → String
  | .Timeout => "Timeout"
  | .RequestError => "RequestError"
  | .InvalidContent => "InvalidContent"

/-- An uncaught Python exception escaping record processing. -/
inductive UncaughtErr
  | keyError (field : String)
  | mkdirError
deriving DecidableEq

/-- Per-record environment: the HTTP oracle (outcome of the n-th GET
attempt the code would issue for this record), and whether the
filesystem faults on `mkdir` (line 150) or on the write (line 154). -/
structure RecordEnv where
  http : Nat → HttpOutcome
  mkdirFails : Bool
  writeFails : Bool

/-- Source line 37: `TIMEOUT = 30`. -/
def TIMEOUT : Nat := 30

/-- Source line 38: `MAX_RETRIES = 3`. -/
def MAX_RETRIES : Nat := 3

/-- Source line 39: `RETRY_DELAY = 2`. -/
def RETRY_DELAY : Nat := 2

/-- Source line 36 default for `FOLDER_NAME`. -/
def FOLDER_NAME_DEFAULT : String := "streams"

/-- Source line 35 default for `ENDPOINT`. -/
def ENDPOINT_DEFAULT : String := "https://your-endpoint.com"

/-- `listStartsWith pat l`: `pat` is a prefix of `l`. -/
def listStartsWith : List Char → List Char → Bool
  | [], _ => true
  | _ :: _, [] => false
  | p :: ps, c :: cs => p == c && listStartsWith ps cs

/-- `listContainsSub pat l`: `pat` occurs contiguously inside `l`. -/
def listContainsSub (pat : List Char) : List Char → Bool
  | [] => listStartsWith pat []
  | l@(_ :: rest) => listStartsWith pat l || listContainsSub pat rest

/-- Python `'#EXTM3U' in content` (source line 127). -/
def containsMarker (s : String) : Bool :=
  listContainsSub "#EXTM3U".data s.data

/-- `response.raise_for_status()` raises `requests.exceptions.HTTPError`
exactly for status codes 400-599. -/
def raise_for_status_raises (code : Nat) : Bool :=
  decide (400 ≤ code ∧ code < 600)

/-- Source line 110: `url = f"{ENDPOINT}?ID={stream_id}"`. -/
def buildUrl (endpoint stream_id : String) : String :=
  endpoint ++ "?ID=" ++ stream_id

/-- Result of `fetch_stream_url`: the pair it returns, plus (for
specification purposes) how many GET attempts were issued and the URL
that was requested. -/
structure FetchResult where
  content : Option String
  errorKind : Option FetchErr
  attempts : Nat
  url : String
deriving DecidableEq

/-- `fetch_stream_url` (source lines 106-139).  Reads `stream_config['id']`
and `stream_config['slug']` BEFORE its try block (lines 108-109), so a
missing field raises `KeyError`, which no handler catches.  It then issues
exactly one GET (line 123); a `Timeout` gives `'Timeout'`, any other
`RequestException` (including the `HTTPError` from `raise_for_status`)
gives `'RequestError'`; a 2xx body lacking `'#EXTM3U'` gives
`'InvalidContent'`. -/
def fetch_stream_url (http : Nat → HttpOutcome) (endpoint : String)
    (stream_config : RawRecord) : Except UncaughtErr FetchResult :=
  match lookupField stream_config "id" with
  | none => .error (.keyError "id")
  | some stream_id =>
    match lookupField stream_config "slug" with
    | none => .error (.keyError "slug")
    | some _slug =>
      let url := buildUrl endpoint stream_id
      match http 0 with
      | .timeout => .ok ⟨none, some .Timeout, 1, url⟩
      | .connError => .ok ⟨none, some .RequestError, 1, url⟩
      | .status code body =>
        if raise_for_status_raises code then .ok ⟨none, some .RequestError, 1, url⟩
        else if containsMarker body then .ok ⟨some body, none, 1, url⟩
        else .ok ⟨none, some .InvalidContent, 1, url⟩

/-- Target path `folder[/subfolder]/slug.m3u8` (source lines 144-151;
`if subfolder:` is Python truthiness, so the empty string omits the
subfolder component). -/
def targetPath (folder subfolder slug : String) : String :=
  (if subfolder = "" then folder else folder ++ "/" ++ subfolder) ++ "/" ++ slug ++ ".m3u8"

/-- `save_stream` (source lines 141-160).  `stream_config['slug']` can
raise `KeyError`; `output_dir.mkdir(...)` (line 150) sits OUTSIDE the try
block, so its failure propagates; the write (line 154) sits inside it, so
its failure returns `False`. -/
def save_stream (env : RecordEnv) (folder : String) (stream_config : RawRecord)
    (m3u8_content : String) (fs : FS) : Except UncaughtErr (Bool × FS) :=
  match lookupField stream_config "slug" with
  | none => .error (.keyError "slug")
  | some slug =>
    let subfolder := getD stream_config "subfolder" ""
    let output_file := targetPath folder subfolder slug
    if env.mkdirFails then .error .mkdirError
    else if env.writeFails then .ok (false, fs)
    else .ok (true, fsSet fs output_file m3u8_content)

/-- `delete_old_file` (source lines 162-180).  Computes the same target
path as `save_stream` and unlinks the file if it exists. -/
def delete_old_file (folder : String) (stream_config : RawRecord) (fs : FS) :
    Except UncaughtErr (Bool × FS) :=
  match lookupField stream_config "slug" with
  | none => .error (.keyError "slug")
  | some slug =>
    let subfolder := getD stream_config "subfolder" ""
    let output_file := targetPath folder subfolder slug
    match fsGet fs output_file with
    | some _ => .ok (true, fsRemove fs output_file)
    | none => .ok (false, fs)

/-- The run summary: `total_success`, `total_fail`, `error_summary`
(source lines 204-206). -/
structure Summary where
  success : Nat
  fail : Nat
  byKind : List (String × Nat)
deriving DecidableEq

/-- `error_summary[k] = error_summary.get(k, 0) + 1` (source lines 221, 226). -/
def bump : List (String × Nat) → String → List (String × Nat)
  | [], k => [(k, 1)]
  | (k', n) :: rest, k =>
    if k' == k then (k', n + 1) :: rest else (k', n) :: bump rest k

/-- The failure path of the record loop (source lines 218-226, both the
save-failure and the fetch-failure arms): count the failure, delete the
old file, and record the error kind when truthy. -/
def record_failure (folder : String) (stream : RawRecord) (error_type : Option String)
    (fs : FS) (s : Summary) : Except (UncaughtErr × FS) (FS × Summary) :=
  match delete_old_file folder stream fs with
  | .error e => .error (e, fs)
  | .ok (_, fs') =>
    let byKind' := match error_type with
      | some k => if k = "" then s.byKind else bump s.byKind k
      | none => s.byKind
    .ok (fs', ⟨s.success, s.fail + 1, byKind'⟩)

/-- One iteration of the record loop (source lines 211-226).
`if m3u8_content:` is Python truthiness: `None` and `""` both take the
failure branch.  An uncaught exception carries the filesystem state at
the moment of the crash. -/
def process_stream (env : RecordEnv) (endpoint folder : String) (stream : RawRecord)
    (fs : FS) (s : Summary) : Except (UncaughtErr × FS) (FS × Summary) :=
  match fetch_stream_url env.http endpoint stream with
  | .error e => .error (e, fs)
  | .ok res =>
    match res.content with
    | some m3u8_content =>
      if m3u8_content = "" then
        record_failure folder stream (res.errorKind.map FetchErr.kindName) fs s
      else
        match save_stream env folder stream m3u8_content fs with
        | .error e => .error (e, fs)
        | .ok (true, fs') => .ok (fs', ⟨s.success + 1, s.fail, s.byKind⟩)
        | .ok (false, fs') => record_failure folder stream (some "SaveError") fs' s
    | none => record_failure folder stream (res.errorKind.map FetchErr.kindName) fs s

/-- The record loop over one config's streams.  `k` is the global index
of the next record (selecting its environment); it is threaded so one
oracle `Nat → RecordEnv` covers the whole run. -/
def process_streams (env : Nat → RecordEnv) (endpoint folder : String) :
    List RawRecord → Nat → FS → Summary → Except (UncaughtErr × FS) (Nat × FS × Summary)
  | [], k, fs, s => .ok (k, fs, s)
  | stream :: rest, k, fs, s =>
    match process_stream (env k) endpoint folder stream fs s with
    | .error e => .error e
    | .ok (fs', s') => process_streams env endpoint folder rest (k + 1) fs' s'

/-- What reading and JSON-parsing one config file can yield: file missing
(`FileNotFoundError`), content not valid JSON (`json.JSONDecodeError`),
or a parsed JSON array of objects.  The model covers the JSON documents
that are arrays of objects with string fields; shape defects the claims
mention (missing `id`/`slug` keys) are representable. -/
inductive FileRead
  | missing
  | badJson
  | parsed (streams : List RawRecord)

/-- `load_config` (source lines 66-78): `sys.exit(1)` (here `.error ()`)
on a missing file or invalid JSON; otherwise the parsed value is returned
as-is, with NO validation of its shape. -/
def load_config : FileRead → Except Unit (List RawRecord)
  | .missing => .error ()
  | .badJson => .error ()
  | .parsed streams => .ok streams

/-- Parsed command-line arguments (source lines 182-192).  `timeout`,
`retries`, `retry_delay` and `verbose` are parsed and stored but never
read by the fetch/save pipeline, exactly as in the source. -/
structure Args where
  config_files : List FileRead
  endpoint : String := ENDPOINT_DEFAULT
  folder : String := FOLDER_NAME_DEFAULT
  timeout : Nat := TIMEOUT
  retries : Nat := MAX_RETRIES
  retry_delay : Nat := RETRY_DELAY
  verbose : Bool := false
  fail_on_error : Bool := false

/-- Result of the config-files loop: an uncaught exception, a
`sys.exit(1)` from `load_config`, or normal completion with a summary. -/
inductive LoopResult
  | crashed (e : UncaughtErr) (fs : FS)
  | configExit (fs : FS)
  | done (fs : FS) (s : Summary)
deriving DecidableEq

/-- The loop over config files (source lines 208-226). -/
def run_configs (env : Nat → RecordEnv) (endpoint folder : String) :
    List FileRead → Nat → FS → Summary → LoopResult
  | [], _, fs, s => .done fs s
  | c :: cs, k, fs, s =>
    match load_config c with
    | .error () => .configExit fs
    | .ok streams =>
      match process_streams env endpoint folder streams k fs s with
      | .error (e, fs') => .crashed e fs'
      | .ok (k', fs', s') => run_configs env endpoint folder cs k' fs' s'

/-- How a run of `main` ends: an uncaught exception, or `sys.exit`/normal
return with an exit code; the summary is `some` exactly when the final
summary block (lines 228-234) was reached. -/
inductive RunOutcome
  | crashed (e : UncaughtErr) (fs : FS)
  | exited (code : Nat) (fs : FS) (summary : Option Summary)
deriving DecidableEq

/-- `main` (source lines 194-237): process every config file, print the
summary, and `sys.exit(1)` iff `total_fail > 0 and args.fail_on_error`
(line 236), else return normally (exit code 0). -/
def main (args : Args) (env : Nat → RecordEnv) (fs : FS) : RunOutcome :=
  match run_configs env args.endpoint args.folder args.config_files 0 fs ⟨0, 0, []⟩ with
  | .crashed e fs' => .crashed e fs'
  | .configExit fs' => .exited 1 fs' none
  | .done fs' s =>
    .exited (if decide (0 < s.fail) && args.fail_on_error then 1 else 0) fs' (some s)

/-- Total number of records across config files (meaningful when every
file is `.parsed`). -/
def totalRecords (cfgs : List FileRead) : Nat :=
  (cfgs.map (fun c => match c with | .parsed l => l.length | _ => 0)).sum

/-- `failCountOpt`: the failure count of an optional summary, 0 when absent. -/
def failCountOpt : Option Summary → Nat
  | none => 0
  | some s => s.fail

/-- Modelled from the spec: the endpoint normalization the spec requires
("trailing slash must be stripped from endpoint once at settings-build
time").  Used only to compare the spec's URL with the code's URL. -/
def stripTrailingSlash (e : String) : String :=
  if e.data.getLast? = some '/' then .mk e.data.dropLast else e

/-- Modelled from the spec: "a list of objects with required string
fields `id` and `slug`" — whether one record matches the expected shape.
Used only to state that `load_config` does not check it. -/
def isValidRecordShape (r : RawRecord) : Bool :=
  (lookupField r "id").isSome && (lookupField r "slug").isSome

end YT

namespace YT

theorem find?_filter_ne_self (p : String) (l : List (String × String)) :
    (l.filter (fun e => e.1 != p)).find? (fun e => e.1 == p) = none := by
  induction l with
  | nil => rfl
  | cons a rest ih =>
    rw [List.filter_cons]
    by_cases hb : a.1 = p
    · rw [if_neg (by simp [bne, hb])]
      exact ih
    · rw [if_pos (by simp [bne, hb]), List.find?_cons]
      have hf : (a.1 == p) = false := by simp [hb]
      rw [hf]
      simp

theorem find?_filter_ne_other (p q : String) (h : p ≠ q) (l : List (String × String)) :
    (l.filter (fun e => e.1 != q)).find? (fun e => e.1 == p) = l.find? (fun e => e.1 == p) := by
  induction l with
  | nil => rfl
  | cons a rest ih =>
    rw [List.filter_cons]
    by_cases hb : a.1 = q
    · rw [if_neg (by simp [bne, hb]), List.find?_cons]
      have hf : (a.1 == p) = false := by
        rw [hb]
        exact beq_eq_false_iff_ne.mpr (Ne.symm h)
      rw [hf]
      simpa using ih
    · rw [if_pos (by simp [bne, hb]), List.find?_cons, List.find?_cons]
      by_cases hap : (a.1 == p) = true
      · rw [hap]
      · rw [Bool.eq_false_iff.mpr hap]
        simpa using ih

theorem fsGet_fsRemove_self (fs : FS) (p : String) : fsGet (fsRemove fs p) p = none := by
  unfold fsGet fsRemove
  rw [find?_filter_ne_self]
  rfl

theorem fsGet_fsRemove_ne (fs : FS) (p q : String) (h : p ≠ q) :
    fsGet (fsRemove fs q) p = fsGet fs p := by
  unfold fsGet fsRemove
  rw [find?_filter_ne_other p q h]

end YT

namespace YT

/-- `delete_old_file` with the slug present: succeeds, leaves the target
path absent, and only ever deletes (never adds or changes a file). -/
theorem delete_old_file_spec (folder : String) (stream : RawRecord) (fs : FS) (slug : String)
    (h : lookupField stream "slug" = some slug) :
    ∃ b fs', delete_old_file folder stream fs = .ok (b, fs') ∧
      fsGet fs' (targetPath folder (getD stream "subfolder" "") slug) = none ∧
      ∀ p, fsGet fs' p = fsGet fs p ∨ fsGet fs' p = none := by
  unfold delete_old_file
  rw [h]
  dsimp only
  cases hg : fsGet fs (targetPath folder (getD stream "subfolder" "") slug) with
  | some c =>
    refine ⟨true, fsRemove fs _, rfl, fsGet_fsRemove_self _ _, fun p => ?_⟩
    by_cases hp : p = targetPath folder (getD stream "subfolder" "") slug
    · exact Or.inr (hp ▸ fsGet_fsRemove_self _ _)
    · exact Or.inl (fsGet_fsRemove_ne _ _ _ hp)
  | none => exact ⟨false, fs, rfl, hg, fun p => Or.inl rfl⟩

/-- `record_failure` with the slug present: returns normally, counts one
failure, and its filesystem only shrinks, with the target path absent. -/
theorem record_failure_spec (folder : String) (stream : RawRecord) (et : Option String)
    (fs : FS) (s : Summary) (slug : String)
    (h : lookupField stream "slug" = some slug) :
    ∃ fs', record_failure folder stream et fs s =
        .ok (fs', ⟨s.success, s.fail + 1,
          match et with
          | some k => if k = "" then s.byKind else bump s.byKind k
          | none => s.byKind⟩) ∧
      fsGet fs' (targetPath folder (getD stream "subfolder" "") slug) = none ∧
      ∀ p, fsGet fs' p = fsGet fs p ∨ fsGet fs' p = none := by
  obtain ⟨b, fs', hdel, htgt, hsub⟩ := delete_old_file_spec folder stream fs slug h
  refine ⟨fs', ?_, htgt, hsub⟩
  unfold record_failure
  rw [hdel]

end YT

namespace YT

/-- With both required fields present, `fetch_stream_url` is determined
by the outcome of the single GET attempt. -/
theorem fetch_stream_url_eq (http : Nat → HttpOutcome) (endpoint : String) (stream : RawRecord)
    (i sl : String) (h1 : lookupField stream "id" = some i)
    (h2 : lookupField stream "slug" = some sl) :
    fetch_stream_url http endpoint stream =
      match http 0 with
      | .timeout => .ok ⟨none, some .Timeout, 1, buildUrl endpoint i⟩
      | .connError => .ok ⟨none, some .RequestError, 1, buildUrl endpoint i⟩
      | .status code body =>
        if raise_for_status_raises code then .ok ⟨none, some .RequestError, 1, buildUrl endpoint i⟩
        else if containsMarker body then .ok ⟨some body, none, 1, buildUrl endpoint i⟩
        else .ok ⟨none, some .InvalidContent, 1, buildUrl endpoint i⟩ := by
  unfold fetch_stream_url
  rw [h1, h2]

/-- `fetch_stream_url` only raises `KeyError`, on `'id'` or `'slug'`. -/
theorem fetch_stream_url_error (http : Nat → HttpOutcome) (endpoint : String)
    (stream : RawRecord) (e : UncaughtErr)
    (h : fetch_stream_url http endpoint stream = .error e) :
    e = .keyError "id" ∨ e = .keyError "slug" := by
  unfold fetch_stream_url at h
  cases hid : lookupField stream "id" with
  | none => rw [hid] at h; cases h; exact Or.inl rfl
  | some i =>
    rw [hid] at h
    dsimp only at h
    cases hsl : lookupField stream "slug" with
    | none => rw [hsl] at h; cases h; exact Or.inr rfl
    | some sl =>
      rw [hsl] at h
      dsimp only at h
      cases ho : http 0 with
      | timeout => rw [ho] at h; cases h
      | connError => rw [ho] at h; cases h
      | status code body =>
        rw [ho] at h
        dsimp only at h
        by_cases hr : raise_for_status_raises code = true
        · rw [if_pos hr] at h; cases h
        · rw [if_neg hr] at h
          by_cases hmk : containsMarker body = true
          · rw [if_pos hmk] at h; cases h
          · rw [if_neg hmk] at h; cases h

/-- A record missing `'id'` or `'slug'` makes `fetch_stream_url` raise
`KeyError` before any request is issued. -/
theorem fetch_stream_url_missing_field (http : Nat → HttpOutcome) (endpoint : String)
    (stream : RawRecord)
    (h : lookupField stream "id" = none ∨ lookupField stream "slug" = none) :
    ∃ k, fetch_stream_url http endpoint stream = .error (.keyError k) := by
  unfold fetch_stream_url
  cases hid : lookupField stream "id" with
  | none => exact ⟨"id", rfl⟩
  | some i =>
    cases hsl : lookupField stream "slug" with
    | none => exact ⟨"slug", rfl⟩
    | some sl =>
      rcases h with h | h
      · rw [hid] at h; cases h
      · rw [hsl] at h; cases h

/-- When `mkdir` does not fault, a `save_stream` exception can only be the
`KeyError` on `'slug'`. -/
theorem save_stream_error (env : RecordEnv) (folder : String) (stream : RawRecord)
    (c : String) (fs : FS) (e : UncaughtErr)
    (h : save_stream env folder stream c fs = .error e)
    (hm : env.mkdirFails = false) : e = .keyError "slug" := by
  unfold save_stream at h
  split at h
  · cases h; rfl
  · simp only [hm, Bool.false_eq_true, if_false] at h
    split at h <;> cases h

/-- `delete_old_file` only raises `KeyError` on `'slug'`. -/
theorem delete_old_file_error (folder : String) (stream : RawRecord) (fs : FS)
    (e : UncaughtErr) (h : delete_old_file folder stream fs = .error e) :
    e = .keyError "slug" := by
  unfold delete_old_file at h
  split at h
  · cases h; rfl
  · dsimp only at h
    split at h <;> cases h

/-- `record_failure` counts exactly one failure and no success. -/
theorem record_failure_count (folder : String) (stream : RawRecord) (et : Option String)
    (fs : FS) (s : Summary) (fs' : FS) (s' : Summary)
    (h : record_failure folder stream et fs s = .ok (fs', s')) :
    s'.success = s.success ∧ s'.fail = s.fail + 1 := by
  unfold record_failure at h
  cases hdel : delete_old_file folder stream fs with
  | error e => rw [hdel] at h; cases h
  | ok bfs =>
    obtain ⟨b, fs2⟩ := bfs
    rw [hdel] at h
    dsimp only at h
    cases h
    exact ⟨rfl, rfl⟩

/-- A record-loop iteration that returns normally counts the record
exactly once: as a success or as a failure. -/
theorem process_stream_count (env : RecordEnv) (endpoint folder : String) (stream : RawRecord)
    (fs : FS) (s : Summary) (fs' : FS) (s' : Summary)
    (h : process_stream env endpoint folder stream fs s = .ok (fs', s')) :
    s'.success + s'.fail = s.success + s.fail + 1 := by
  unfold process_stream at h
  cases hf : fetch_stream_url env.http endpoint stream with
  | error e => rw [hf] at h; cases h
  | ok res =>
    rw [hf] at h
    dsimp only at h
    cases hc : res.content with
    | none =>
      rw [hc] at h
      obtain ⟨h1, h2⟩ := record_failure_count _ _ _ _ _ _ _ h
      omega
    | some c =>
      rw [hc] at h
      dsimp only at h
      by_cases hce : c = ""
      · rw [if_pos hce] at h
        obtain ⟨h1, h2⟩ := record_failure_count _ _ _ _ _ _ _ h
        omega
      · rw [if_neg hce] at h
        cases hs : save_stream env folder stream c fs with
        | error e => rw [hs] at h; cases h
        | ok bfs =>
          obtain ⟨b, fs2⟩ := bfs
          rw [hs] at h
          cases b
          · dsimp only at h
            obtain ⟨h1, h2⟩ := record_failure_count _ _ _ _ _ _ _ h
            omega
          · dsimp only at h
            cases h
            dsimp only
            omega

end YT

namespace YT

/-- A `record_failure` exception is the `KeyError` on `'slug'` and leaves
the filesystem as it was. -/
theorem record_failure_error (folder : String) (stream : RawRecord) (et : Option String)
    (fs : FS) (s : Summary) (e : UncaughtErr) (fs2 : FS)
    (h : record_failure folder stream et fs s = .error (e, fs2)) :
    e = .keyError "slug" ∧ fs2 = fs := by
  unfold record_failure at h
  cases hdel : delete_old_file folder stream fs with
  | error e0 =>
    rw [hdel] at h
    cases h
    exact ⟨delete_old_file_error _ _ _ _ hdel, rfl⟩
  | ok bfs =>
    obtain ⟨b, fsx⟩ := bfs
    rw [hdel] at h
    dsimp only at h
    cases h

/-- When `mkdir` does not fault, a record-loop iteration can only crash
with a `KeyError`, and the crash leaves the filesystem unchanged. -/
theorem process_stream_error (env : RecordEnv) (endpoint folder : String) (stream : RawRecord)
    (fs : FS) (s : Summary) (e : UncaughtErr) (fs2 : FS)
    (h : process_stream env endpoint folder stream fs s = .error (e, fs2))
    (hm : env.mkdirFails = false) :
    (∃ k, e = .keyError k) ∧ fs2 = fs := by
  unfold process_stream at h
  cases hf : fetch_stream_url env.http endpoint stream with
  | error e0 =>
    rw [hf] at h
    cases h
    rcases fetch_stream_url_error _ _ _ _ hf with h1 | h1
    · exact ⟨⟨"id", h1⟩, rfl⟩
    · exact ⟨⟨"slug", h1⟩, rfl⟩
  | ok res =>
    rw [hf] at h
    dsimp only at h
    cases hc : res.content with
    | none =>
      rw [hc] at h
      obtain ⟨h1, h2⟩ := record_failure_error _ _ _ _ _ _ _ h
      exact ⟨⟨"slug", h1⟩, h2⟩
    | some c =>
      rw [hc] at h
      dsimp only at h
      by_cases hce : c = ""
      · rw [if_pos hce] at h
        obtain ⟨h1, h2⟩ := record_failure_error _ _ _ _ _ _ _ h
        exact ⟨⟨"slug", h1⟩, h2⟩
      · rw [if_neg hce] at h
        cases hs : save_stream env folder stream c fs with
        | error e0 =>
          rw [hs] at h
          cases h
          exact ⟨⟨"slug", save_stream_error _ _ _ _ _ _ hs hm⟩, rfl⟩
        | ok bfs =>
          obtain ⟨b, fsx⟩ := bfs
          rw [hs] at h
          cases b
          · dsimp only at h
            obtain ⟨h1, h2⟩ := record_failure_error _ _ _ _ _ _ _ h
            refine ⟨⟨"slug", h1⟩, ?_⟩
            -- the save write failed without touching the filesystem
            have : fsx = fs := by
              unfold save_stream at hs
              split at hs
              · cases hs
              · simp only [hm, Bool.false_eq_true, if_false] at hs
                split at hs
                · cases hs; rfl
                · cases hs
            rw [h2, this]
          · dsimp only at h
            cases h

end YT

namespace YT

/-- A record loop that completes counts each record exactly once. -/
theorem process_streams_count (env : Nat → RecordEnv) (endpoint folder : String) :
    ∀ (l : List RawRecord) (k : Nat) (fs : FS) (s : Summary) (k' : Nat) (fs' : FS) (s' : Summary),
    process_streams env endpoint folder l k fs s = .ok (k', fs', s') →
    s'.success + s'.fail = s.success + s.fail + l.length := by
  intro l
  induction l with
  | nil =>
    intro k fs s k' fs' s' h
    unfold process_streams at h
    cases h
    simp
  | cons stream rest ih =>
    intro k fs s k' fs' s' h
    unfold process_streams at h
    cases hp : process_stream (env k) endpoint folder stream fs s with
    | error p => rw [hp] at h; cases h
    | ok p =>
      obtain ⟨fs2, s2⟩ := p
      rw [hp] at h
      dsimp only at h
      have hrest := ih (k + 1) fs2 s2 k' fs' s' h
      have hone := process_stream_count _ _ _ _ _ _ _ _ hp
      simp only [List.length_cons]
      omega

/-- When `mkdir` never faults, the record loop can only crash with a
`KeyError`. -/
theorem process_streams_error (env : Nat → RecordEnv) (endpoint folder : String)
    (hm : ∀ n, (env n).mkdirFails = false) :
    ∀ (l : List RawRecord) (k : Nat) (fs : FS) (s : Summary) (e : UncaughtErr) (fs' : FS),
    process_streams env endpoint folder l k fs s = .error (e, fs') →
    ∃ kk, e = .keyError kk := by
  intro l
  induction l with
  | nil =>
    intro k fs s e fs' h
    unfold process_streams at h
    cases h
  | cons stream rest ih =>
    intro k fs s e fs' h
    unfold process_streams at h
    cases hp : process_stream (env k) endpoint folder stream fs s with
    | error p =>
      obtain ⟨e0, fs0⟩ := p
      rw [hp] at h
      cases h
      exact (process_stream_error _ _ _ _ _ _ _ _ hp (hm k)).1
    | ok p =>
      obtain ⟨fs2, s2⟩ := p
      rw [hp] at h
      dsimp only at h
      exact ih (k + 1) fs2 s2 e fs' h

/-- A record lacking `'id'` or `'slug'` anywhere in the list makes the
record loop crash with a `KeyError` (when `mkdir` never faults). -/
theorem process_streams_bad (env : Nat → RecordEnv) (endpoint folder : String)
    (hm : ∀ n, (env n).mkdirFails = false) :
    ∀ (l : List RawRecord) (k : Nat) (fs : FS) (s : Summary),
    (∃ r ∈ l, lookupField r "id" = none ∨ lookupField r "slug" = none) →
    ∃ kk fs', process_streams env endpoint folder l k fs s = .error (.keyError kk, fs') := by
  intro l
  induction l with
  | nil =>
    intro k fs s h
    obtain ⟨r, hr, _⟩ := h
    cases hr
  | cons stream rest ih =>
    intro k fs s hbad
    unfold process_streams
    cases hp : process_stream (env k) endpoint folder stream fs s with
    | error p =>
      obtain ⟨e0, fs0⟩ := p
      obtain ⟨⟨kk, hk⟩, _⟩ := process_stream_error _ _ _ _ _ _ _ _ hp (hm k)
      rw [hk]
      exact ⟨kk, fs0, rfl⟩
    | ok p =>
      obtain ⟨fs2, s2⟩ := p
      obtain ⟨r, hr, hmiss⟩ := hbad
      rcases List.mem_cons.mp hr with rfl | hr2
      · obtain ⟨kk, hek⟩ := fetch_stream_url_missing_field (env k).http endpoint r hmiss
        unfold process_stream at hp
        rw [hek] at hp
        cases hp
      · dsimp only
        exact ih (k + 1) fs2 s2 ⟨r, hr2, hmiss⟩

/-- A run of the config loop that reaches the summary has counted every
record of every config exactly once. -/
theorem run_configs_done_count (env : Nat → RecordEnv) (endpoint folder : String) :
    ∀ (cfgs : List FileRead) (k : Nat) (fs : FS) (s : Summary) (fs' : FS) (s' : Summary),
    run_configs env endpoint folder cfgs k fs s = .done fs' s' →
    s'.success + s'.fail = s.success + s.fail + totalRecords cfgs := by
  intro cfgs
  induction cfgs with
  | nil =>
    intro k fs s fs' s' h
    unfold run_configs at h
    cases h
    simp [totalRecords]
  | cons c cs ih =>
    intro k fs s fs' s' h
    unfold run_configs at h
    cases c with
    | missing => dsimp only [load_config] at h; cases h
    | badJson => dsimp only [load_config] at h; cases h
    | parsed streams =>
      dsimp only [load_config] at h
      cases hp : process_streams env endpoint folder streams k fs s with
      | error p =>
        obtain ⟨e0, fs0⟩ := p
        rw [hp] at h
        cases h
      | ok t =>
        obtain ⟨k2, fs2, s2⟩ := t
        rw [hp] at h
        dsimp only at h
        have hrest := ih k2 fs2 s2 fs' s' h
        have hone := process_streams_count env endpoint folder streams k fs s k2 fs2 s2 hp
        unfold totalRecords at hrest ⊢
        simp only [List.map_cons, List.sum_cons]
        omega

/-- With every config file parsing and `mkdir` never faulting, a record
missing a required field anywhere in the run crashes the whole run with
a `KeyError`. -/
theorem run_configs_crashed_of_bad (env : Nat → RecordEnv) (endpoint folder : String)
    (hm : ∀ n, (env n).mkdirFails = false) :
    ∀ (cfgs : List FileRead) (k : Nat) (fs : FS) (s : Summary),
    (∀ c ∈ cfgs, ∃ l, c = .parsed l) →
    (∃ c ∈ cfgs, ∃ l, c = .parsed l ∧ ∃ r ∈ l, lookupField r "id" = none ∨ lookupField r "slug" = none) →
    ∃ kk fs', run_configs env endpoint folder cfgs k fs s = .crashed (.keyError kk) fs' := by
  intro cfgs
  induction cfgs with
  | nil =>
    intro k fs s _ hbad
    obtain ⟨c, hc, _⟩ := hbad
    cases hc
  | cons c cs ih =>
    intro k fs s hall hbad
    obtain ⟨l0, hc0⟩ := hall c (List.mem_cons_self c cs)
    subst hc0
    unfold run_configs
    dsimp only [load_config]
    cases hp : process_streams env endpoint folder l0 k fs s with
    | error p =>
      obtain ⟨e0, fs0⟩ := p
      obtain ⟨kk, hk⟩ := process_streams_error env endpoint folder hm l0 k fs s e0 fs0 hp
      rw [hk]
      exact ⟨kk, fs0, rfl⟩
    | ok t =>
      obtain ⟨k2, fs2, s2⟩ := t
      dsimp only
      obtain ⟨c1, hc1, l1, hl1, hbadrec⟩ := hbad
      rcases List.mem_cons.mp hc1 with rfl | hc2
      · injection hl1 with hll
        obtain ⟨kk, fsx, hperr⟩ :=
          process_streams_bad env endpoint folder hm l0 k fs s (hll ▸ hbadrec)
        rw [hperr] at hp
        cases hp
      · exact ih k2 fs2 s2 (fun c hc => hall c (List.mem_cons_of_mem _ hc)) ⟨c1, hc2, l1, hl1, hbadrec⟩
end YT

namespace YT

/-- A body containing the manifest marker is nonempty (so it is truthy
for the `if m3u8_content:` test in `main`). -/
theorem containsMarker_ne_empty (body : String) (h : containsMarker body = true) :
    body ≠ "" := by
  intro he
  subst he
  exact absurd h (by decide)

/-- With the slug present and `mkdir` not faulting, `save_stream` is
determined by whether the write faults. -/
theorem save_stream_eq (env : RecordEnv) (folder : String) (stream : RawRecord)
    (c : String) (fs : FS) (sl : String)
    (h2 : lookupField stream "slug" = some sl) (hm : env.mkdirFails = false) :
    save_stream env folder stream c fs =
      if env.writeFails then .ok (false, fs)
      else .ok (true, fsSet fs (targetPath folder (getD stream "subfolder" "") sl) c) := by
  unfold save_stream
  rw [h2]
  dsimp only
  rw [hm]
  simp only [Bool.false_eq_true, if_false]

end YT

namespace YT

/-- C1: the claim says the fetcher retries a failed GET up to `maxRetries`
times with `retryDelaySeconds` between attempts and classifies only after
exhaustion.  Evaluating the code at a failing input: the first attempt
times out, a second attempt would have returned a valid manifest, and the
configured default `MAX_RETRIES` is 3 — yet the fetcher issues exactly one
GET and classifies `Timeout` immediately.  `MAX_RETRIES` and `RETRY_DELAY`
are defined (and advertised by the `--retries`/`--retry-delay` options)
but never read by the fetch path. -/
theorem c1_code_no_retry_eval :
    fetch_stream_url (fun n => if n = 0 then .timeout else .status 200 "#EXTM3U\n")
        "https://e.example" [("id", "abc"), ("slug", "chan1")] =
      .ok ⟨none, some .Timeout, 1, "https://e.example?ID=abc"⟩ ∧
    (fun n => if n = 0 then HttpOutcome.timeout else .status 200 "#EXTM3U\n") 1 =
      .status 200 "#EXTM3U\n" ∧
    MAX_RETRIES = 3 ∧ RETRY_DELAY = 2 :=
  ⟨rfl, rfl, rfl, rfl⟩

/-- C2, counterexample: the claim says an HTTP 404 triggers exactly one
additional immediate retry before classification.  Concretely: the first
attempt returns 404, a second attempt would have returned a valid
manifest, yet the fetcher classifies `RequestError` after exactly one
GET — there is no 404 retry in the code. -/
theorem c2_counterexample :
    fetch_stream_url (fun n => if n = 0 then .status 404 "" else .status 200 "#EXTM3U\n")
        "https://e.example" [("id", "abc"), ("slug", "chan1")] =
      .ok ⟨none, some .RequestError, 1, "https://e.example?ID=abc"⟩ ∧
    (fun n => if n = 0 then HttpOutcome.status 404 "" else .status 200 "#EXTM3U\n") 1 =
      .status 200 "#EXTM3U\n" :=
  ⟨rfl, rfl⟩

/-- C2, amended: an HTTP 404 response makes `raise_for_status` raise, and
the record is classified `RequestError` immediately after the single GET
attempt, with no additional retry. -/
theorem c2_amended_404_immediate_error (http : Nat → HttpOutcome) (endpoint : String)
    (stream : RawRecord) (i sl body : String)
    (h1 : lookupField stream "id" = some i)
    (h2 : lookupField stream "slug" = some sl)
    (h3 : http 0 = .status 404 body) :
    fetch_stream_url http endpoint stream =
      .ok ⟨none, some .RequestError, 1, buildUrl endpoint i⟩ := by
  rw [fetch_stream_url_eq http endpoint stream i sl h1 h2, h3]
  dsimp only
  rw [if_pos (by decide : raise_for_status_raises 404 = true)]

theorem c2_amended_404_immediate_error_witness :
    fetch_stream_url (fun _ => .status 404 "gone") "https://e.example"
        [("id", "abc"), ("slug", "chan1")] =
      .ok ⟨none, some .RequestError, 1, buildUrl "https://e.example" "abc"⟩ :=
  c2_amended_404_immediate_error (fun _ => .status 404 "gone") "https://e.example"
    [("id", "abc"), ("slug", "chan1")] "abc" "chan1" "gone" rfl rfl rfl

/-- C3: a 2xx response whose body lacks the literal `#EXTM3U` marker is
classified `InvalidContent`, the failure is counted under that kind, and
the body is never written anywhere: the resulting filesystem contains no
path whose content changed — files are at most deleted. -/
theorem c3_invalid_content_discarded (env : RecordEnv) (endpoint folder : String)
    (stream : RawRecord) (fs : FS) (s : Summary) (i sl : String) (code : Nat) (body : String)
    (h1 : lookupField stream "id" = some i)
    (h2 : lookupField stream "slug" = some sl)
    (h3 : env.http 0 = .status code body)
    (h4 : raise_for_status_raises code = false)
    (h5 : containsMarker body = false) :
    ∃ fs', process_stream env endpoint folder stream fs s =
        .ok (fs', ⟨s.success, s.fail + 1, bump s.byKind "InvalidContent"⟩) ∧
      ∀ p, fsGet fs' p = fsGet fs p ∨ fsGet fs' p = none := by
  obtain ⟨fs', hrec, htgt, hsub⟩ :=
    record_failure_spec folder stream (some "InvalidContent") fs s sl h2
  refine ⟨fs', ?_, hsub⟩
  unfold process_stream
  rw [fetch_stream_url_eq env.http endpoint stream i sl h1 h2, h3]
  dsimp only
  rw [if_neg (by rw [h4]; exact Bool.false_ne_true), if_neg (by rw [h5]; exact Bool.false_ne_true)]
  dsimp only [Option.map, FetchErr.kindName]
  rw [hrec]
  simp

theorem c3_invalid_content_discarded_witness :
    ∃ fs', process_stream ⟨fun _ => .status 200 "oops", false, false⟩ "E" "streams"
        [("id", "abc"), ("slug", "chan1")] [("streams/chan1.m3u8", "old")] ⟨0, 0, []⟩ =
        .ok (fs', ⟨0, 0 + 1, bump [] "InvalidContent"⟩) ∧
      ∀ p, fsGet fs' p = fsGet [("streams/chan1.m3u8", "old")] p ∨ fsGet fs' p = none :=
  c3_invalid_content_discarded ⟨fun _ => .status 200 "oops", false, false⟩ "E" "streams"
    [("id", "abc"), ("slug", "chan1")] [("streams/chan1.m3u8", "old")] ⟨0, 0, []⟩
    "abc" "chan1" 200 "oops" rfl rfl rfl (by decide) (by decide)

/-- C4, counterexample: the claim says a failed save always leads to the
stale target file being deleted.  Concretely: the fetch succeeds, the
save fails because `mkdir` (which sits OUTSIDE `save_stream`'s try block)
raises, the exception propagates and the run dies with the old file
`streams/chan1.m3u8` still present. -/
theorem c4_counterexample :
    process_stream ⟨fun _ => .status 200 "#EXTM3U\n", true, false⟩ "E" "streams"
        [("id", "abc"), ("slug", "chan1")] [("streams/chan1.m3u8", "old")] ⟨0, 0, []⟩ =
      .error (.mkdirError, [("streams/chan1.m3u8", "old")]) ∧
    fsGet [("streams/chan1.m3u8", "old")] "streams/chan1.m3u8" = some "old" :=
  ⟨rfl, rfl⟩

/-- C4, amended: whenever a record's iteration completes normally and is
counted as a failure (fetch failed, or the WRITE step of the save
failed), the target path `folder[/subfolder]/slug.m3u8` is absent from
the resulting filesystem; a `mkdir` failure during save instead aborts
the run without deleting the stale file. -/
theorem c4_amended_stale_file_removed (env : RecordEnv) (endpoint folder : String)
    (stream : RawRecord) (fs : FS) (s : Summary) (fs' : FS) (s' : Summary) (slug : String)
    (h : process_stream env endpoint folder stream fs s = .ok (fs', s'))
    (hfail : s'.fail = s.fail + 1)
    (hsl : lookupField stream "slug" = some slug) :
    fsGet fs' (targetPath folder (getD stream "subfolder" "") slug) = none := by
  unfold process_stream at h
  cases hf : fetch_stream_url env.http endpoint stream with
  | error e => rw [hf] at h; cases h
  | ok res =>
    rw [hf] at h
    dsimp only at h
    cases hc : res.content with
    | none =>
      rw [hc] at h
      obtain ⟨fsx, hrec, htgt, _⟩ := record_failure_spec folder stream _ fs s slug hsl
      rw [hrec] at h
      cases h
      exact htgt
    | some c =>
      rw [hc] at h
      dsimp only at h
      by_cases hce : c = ""
      · rw [if_pos hce] at h
        obtain ⟨fsx, hrec, htgt, _⟩ := record_failure_spec folder stream _ fs s slug hsl
        rw [hrec] at h
        cases h
        exact htgt
      · rw [if_neg hce] at h
        cases hs : save_stream env folder stream c fs with
        | error e => rw [hs] at h; cases h
        | ok bfs =>
          obtain ⟨b, fs2⟩ := bfs
          rw [hs] at h
          cases b
          · dsimp only at h
            obtain ⟨fsx, hrec, htgt, _⟩ := record_failure_spec folder stream _ fs2 s slug hsl
            rw [hrec] at h
            cases h
            exact htgt
          · dsimp only at h
            cases h
            simp at hfail

theorem c4_amended_stale_file_removed_witness :
    fsGet (fsRemove [("streams/chan1.m3u8", "old")] "streams/chan1.m3u8")
      (targetPath "streams" (getD [("id", "abc"), ("slug", "chan1")] "subfolder" "") "chan1") = none :=
  c4_amended_stale_file_removed ⟨fun _ => .timeout, false, false⟩ "E" "streams"
    [("id", "abc"), ("slug", "chan1")] [("streams/chan1.m3u8", "old")] ⟨0, 0, []⟩
    (fsRemove [("streams/chan1.m3u8", "old")] "streams/chan1.m3u8")
    ⟨0, 1, bump [] "Timeout"⟩ "chan1" rfl rfl rfl

end YT

namespace YT

/-- C5: whenever a run reaches the final summary (all config loads
succeeded and no record crashed the process), every record across all
config files has been counted exactly once:
`successCount + failureCount = N`. -/
theorem c5_summary_partition (args : Args) (env : Nat → RecordEnv) (fs : FS)
    (code : Nat) (fs' : FS) (s : Summary)
    (h : main args env fs = .exited code fs' (some s)) :
    s.success + s.fail = totalRecords args.config_files := by
  unfold main at h
  cases hr : run_configs env args.endpoint args.folder args.config_files 0 fs ⟨0, 0, []⟩ with
  | crashed e fs2 => rw [hr] at h; cases h
  | configExit fs2 => rw [hr] at h; simp at h
  | done fs2 s2 =>
    rw [hr] at h
    have h2 := run_configs_done_count env args.endpoint args.folder
      args.config_files 0 fs ⟨0, 0, []⟩ fs2 s2 hr
    simp only [RunOutcome.exited.injEq, Option.some.injEq] at h
    obtain ⟨hcode, hfs, hs⟩ := h
    subst hs
    simpa using h2

theorem c5_summary_partition_witness :
    (1 : Nat) + 1 =
      totalRecords [.parsed [[("id", "a"), ("slug", "s1")], [("id", "b"), ("slug", "s2")]]] :=
  c5_summary_partition
    ⟨[.parsed [[("id", "a"), ("slug", "s1")], [("id", "b"), ("slug", "s2")]]],
      "E", "streams", 30, 3, 2, false, false⟩
    (fun n => if n = 0 then ⟨fun _ => .status 200 "#EXTM3U\n", false, false⟩
      else ⟨fun _ => .timeout, false, false⟩)
    [] 0 [("streams/s1.m3u8", "#EXTM3U\n")] ⟨1, 1, [("Timeout", 1)]⟩ rfl

/-- C6, counterexample: the claim says every per-record save failure is
caught, classified `SaveError`, counted, and the batch continues.
Concretely: one record, fetch succeeds, `mkdir` fails during the save —
the exception is NOT caught (mkdir sits outside `save_stream`'s try
block), the whole run crashes, nothing is classified or counted. -/
theorem c6_counterexample :
    main ⟨[.parsed [[("id", "abc"), ("slug", "chan1")]]], "E", "streams", 30, 3, 2, false, false⟩
        (fun _ => ⟨fun _ => .status 200 "#EXTM3U\n", true, false⟩)
        [("streams/chan1.m3u8", "old")] =
      .crashed .mkdirError [("streams/chan1.m3u8", "old")] := rfl

/-- C6, amended: for a record with both required fields, when `mkdir`
does not fault, every per-record error (fetch failure of any kind, and
write failure during save) is caught at the record level: the iteration
returns normally and the record is counted exactly once, so processing
continues with the next record. -/
theorem c6_amended_record_errors_contained (env : RecordEnv) (endpoint folder : String)
    (stream : RawRecord) (fs : FS) (s : Summary) (i sl : String)
    (h1 : lookupField stream "id" = some i)
    (h2 : lookupField stream "slug" = some sl)
    (hm : env.mkdirFails = false) :
    ∃ fs' s', process_stream env endpoint folder stream fs s = .ok (fs', s') ∧
      s'.success + s'.fail = s.success + s.fail + 1 := by
  have hfb : ∀ (et : Option String) (fsx : FS),
      ∃ fs' s', record_failure folder stream et fsx s = .ok (fs', s') ∧
        s'.success + s'.fail = s.success + s.fail + 1 := by
    intro et fsx
    obtain ⟨fs', hrec, _, _⟩ := record_failure_spec folder stream et fsx s sl h2
    exact ⟨fs', _, hrec, by dsimp only; omega⟩
  unfold process_stream
  rw [fetch_stream_url_eq env.http endpoint stream i sl h1 h2]
  cases ho : env.http 0 with
  | timeout => dsimp only; exact hfb _ _
  | connError => dsimp only; exact hfb _ _
  | status code body =>
    dsimp only
    by_cases hr : raise_for_status_raises code = true
    · rw [if_pos hr]
      dsimp only
      exact hfb _ _
    · rw [if_neg hr]
      by_cases hmk : containsMarker body = true
      · rw [if_pos hmk]
        dsimp only
        rw [if_neg (containsMarker_ne_empty body hmk)]
        rw [save_stream_eq env folder stream body fs sl h2 hm]
        by_cases hw : env.writeFails = true
        · rw [if_pos hw]
          dsimp only
          exact hfb _ _
        · rw [if_neg hw]
          dsimp only
          exact ⟨_, _, rfl, by dsimp only; omega⟩
      · rw [if_neg hmk]
        dsimp only
        exact hfb _ _

theorem c6_amended_record_errors_contained_witness :
    ∃ fs' s', process_stream ⟨fun _ => .timeout, false, true⟩ "E" "streams"
        [("id", "abc"), ("slug", "chan1")] [] ⟨4, 2, []⟩ = .ok (fs', s') ∧
      s'.success + s'.fail = 4 + 2 + 1 :=
  c6_amended_record_errors_contained ⟨fun _ => .timeout, false, true⟩ "E" "streams"
    [("id", "abc"), ("slug", "chan1")] [] ⟨4, 2, []⟩ "abc" "chan1" rfl rfl rfl

/-- C7: every exit of `main` carries code 0 or 1, and the code is 1
exactly when either a config file failed to load (no summary was
produced) or `--fail-on-error` was set and at least one record failed. -/
theorem c7_exit_codes (args : Args) (env : Nat → RecordEnv) (fs : FS)
    (code : Nat) (fs' : FS) (os : Option Summary)
    (h : main args env fs = .exited code fs' os) :
    (code = 0 ∨ code = 1) ∧
    (code = 1 ↔ (os = none ∨ (args.fail_on_error = true ∧ 0 < failCountOpt os))) := by
  unfold main at h
  cases hr : run_configs env args.endpoint args.folder args.config_files 0 fs ⟨0, 0, []⟩ with
  | crashed e fs2 => rw [hr] at h; cases h
  | configExit fs2 =>
    rw [hr] at h
    cases h
    exact ⟨Or.inr rfl, by simp⟩
  | done fs2 s2 =>
    rw [hr] at h
    cases h
    cases hb : decide (0 < s2.fail) && args.fail_on_error
    · refine ⟨Or.inl rfl, ?_⟩
      simp only [failCountOpt]
      constructor
      · intro h01
        exact absurd h01 (by decide)
      · rintro (hnone | ⟨hfo, hpos⟩)
        · cases hnone
        · rw [hfo, Bool.and_true] at hb
          simp only [decide_eq_false_iff_not] at hb
          omega
    · simp only [Bool.and_eq_true] at hb
      obtain ⟨hd, hf⟩ := hb
      refine ⟨Or.inr rfl, ?_⟩
      simp only [failCountOpt]
      exact ⟨fun _ => Or.inr ⟨hf, of_decide_eq_true hd⟩, fun _ => rfl⟩

theorem c7_exit_codes_witness :
    ((1 : Nat) = 0 ∨ (1 : Nat) = 1) ∧
    ((1 : Nat) = 1 ↔ ((some (⟨0, 1, [("Timeout", 1)]⟩ : Summary) = none) ∨
      (true = true ∧ 0 < failCountOpt (some ⟨0, 1, [("Timeout", 1)]⟩)))) :=
  c7_exit_codes
    ⟨[.parsed [[("id", "abc"), ("slug", "chan1")]]], "E", "streams", 30, 3, 2, false, true⟩
    (fun _ => ⟨fun _ => .timeout, false, false⟩) [] 1 [] (some ⟨0, 1, [("Timeout", 1)]⟩) rfl

/-- C8, counterexample: the claim says content not matching the expected
shape (a list of objects with required string fields `id` and `slug`)
fails at load time with `ConfigParseError`.  Concretely: the JSON
document `[{}]` — one record with neither field — is valid JSON, so
`load_config` returns it unchanged; no shape validation happens at load. -/
theorem c8_counterexample :
    load_config (.parsed [[]]) = .ok [[]] ∧ isValidRecordShape [] = false :=
  ⟨rfl, rfl⟩

/-- C8, amended: `load_config` exits the process (code 1) exactly on a
missing file or invalid JSON — shape is not validated — and such a load
failure on the first config file aborts the run immediately: exit code 1,
no summary, filesystem untouched. -/
theorem c8_amended_load_failure_aborts (args : Args) (env : Nat → RecordEnv) (fs : FS)
    (c : FileRead) (rest : List FileRead)
    (hcf : args.config_files = c :: rest)
    (hbad : c = .missing ∨ c = .badJson) :
    main args env fs = .exited 1 fs none := by
  unfold main
  rw [hcf]
  rcases hbad with rfl | rfl
  · rfl
  · rfl

theorem c8_amended_load_failure_aborts_witness :
    main ⟨[.missing], "E", "streams", 30, 3, 2, false, false⟩
        (fun _ => ⟨fun _ => .timeout, false, false⟩) [] = .exited 1 [] none :=
  c8_amended_load_failure_aborts _ _ _ .missing [] rfl (Or.inl rfl)

/-- C9, counterexample: the claim says the endpoint has any trailing
slash stripped at settings-build time so the request URL never contains
it.  Concretely: with endpoint `https://e.example/` the code requests
`https://e.example/?ID=abc`, which differs from the URL built from the
stripped endpoint — no stripping happens anywhere. -/
theorem c9_counterexample :
    fetch_stream_url (fun _ => .status 200 "#EXTM3U\n") "https://e.example/"
        [("id", "abc"), ("slug", "chan1")] =
      .ok ⟨some "#EXTM3U\n", none, 1, "https://e.example/?ID=abc"⟩ ∧
    "https://e.example/?ID=abc" ≠ buildUrl (stripTrailingSlash "https://e.example/") "abc" := by
  constructor
  · rfl
  · decide

/-- C9, amended: the request URL is exactly `endpoint ++ "?ID=" ++ id`
with the endpoint used verbatim as configured (no trailing-slash
normalization anywhere). -/
theorem c9_amended_url_verbatim (http : Nat → HttpOutcome) (endpoint : String)
    (stream : RawRecord) (i sl : String) (res : FetchResult)
    (h1 : lookupField stream "id" = some i)
    (h2 : lookupField stream "slug" = some sl)
    (h : fetch_stream_url http endpoint stream = .ok res) :
    res.url = endpoint ++ "?ID=" ++ i := by
  rw [fetch_stream_url_eq http endpoint stream i sl h1 h2] at h
  cases ho : http 0 with
  | timeout => rw [ho] at h; cases h; rfl
  | connError => rw [ho] at h; cases h; rfl
  | status code body =>
    rw [ho] at h
    dsimp only at h
    by_cases hr : raise_for_status_raises code = true
    · rw [if_pos hr] at h; cases h; rfl
    · rw [if_neg hr] at h
      by_cases hmk : containsMarker body = true
      · rw [if_pos hmk] at h; cases h; rfl
      · rw [if_neg hmk] at h; cases h; rfl

theorem c9_amended_url_verbatim_witness :
    FetchResult.url ⟨none, some .Timeout, 1, buildUrl "https://e.example/" "abc"⟩ =
      "https://e.example/" ++ "?ID=" ++ "abc" :=
  c9_amended_url_verbatim (fun _ => .timeout) "https://e.example/"
    [("id", "abc"), ("slug", "chan1")] "abc" "chan1"
    ⟨none, some .Timeout, 1, buildUrl "https://e.example/" "abc"⟩ rfl rfl rfl

/-- C10: if every config file parses, `mkdir` never faults, and some
record in some config lacks the required `'id'` or `'slug'` field, the
whole run crashes with an uncaught `KeyError` — no summary, no
classification, later records unprocessed. -/
theorem c10_missing_field_crashes (args : Args) (env : Nat → RecordEnv) (fs : FS)
    (c : FileRead) (l : List RawRecord) (r : RawRecord)
    (hall : ∀ c0 ∈ args.config_files, ∃ l0, c0 = .parsed l0)
    (hm : ∀ n, (env n).mkdirFails = false)
    (hc : c ∈ args.config_files) (hl : c = .parsed l) (hr : r ∈ l)
    (hmiss : lookupField r "id" = none ∨ lookupField r "slug" = none) :
    ∃ k fs', main args env fs = .crashed (.keyError k) fs' := by
  obtain ⟨kk, fs', hrun⟩ := run_configs_crashed_of_bad env args.endpoint args.folder hm
    args.config_files 0 fs ⟨0, 0, []⟩ hall ⟨c, hc, l, hl, r, hr, hmiss⟩
  exact ⟨kk, fs', by unfold main; rw [hrun]⟩

theorem c10_missing_field_crashes_witness :
    ∃ k fs', main ⟨[.parsed [[("slug", "chan1")]]], "E", "streams", 30, 3, 2, false, false⟩
        (fun _ => ⟨fun _ => .timeout, false, false⟩) [] = .crashed (.keyError k) fs' :=
  c10_missing_field_crashes
    ⟨[.parsed [[("slug", "chan1")]]], "E", "streams", 30, 3, 2, false, false⟩
    (fun _ => ⟨fun _ => .timeout, false, false⟩) []
    (.parsed [[("slug", "chan1")]]) [[("slug", "chan1")]] [("slug", "chan1")]
    (by intro c0 hc0; rw [List.mem_singleton] at hc0; exact ⟨[[("slug", "chan1")]], hc0⟩)
    (fun n => rfl)
    (List.mem_singleton.mpr rfl) rfl (List.mem_singleton.mpr rfl) (Or.inl rfl)

end YT
